import Mathlib

set_option autoImplicit false

/-
Verification of the dfdx tensor-library fragment: the choose CPU kernel,
the device storage traits (upgrade, factory wrappers, slice copy), the
LayerNorm1D module and the zero-parameter activation modules.

Buffers (StridedArray storages) are embedded as flat lists of elements in
index order; the lending iterators of the CPU backend walk exactly that
order, so a kernel loop that zips iterators becomes structural recursion
over the lists, stopping as soon as any list is exhausted, exactly as the
Rust `while let Some(..) = a.next().zip(b.next())` loop does.
-/

namespace Dfdx

/-! ### Choose kernel (src/tensor_ops/choose/cpu_kernel.rs) -/

/-- The forward loop of `ChooseKernel::forward` for `Cpu`: the output
iterator, condition iterator, lhs iterator and rhs iterator advance in
lockstep; each visited output cell receives `if c then l else r`; the loop
stops when any iterator is exhausted, leaving the rest of the output buffer
at its initial contents. -/
def chooseForwardLoop {α : Type} : List α → List Bool → List α → List α → List α
  | _ :: out, c :: cond, l :: lhs, r :: rhs =>
      (if c then l else r) :: chooseForwardLoop out cond lhs rhs
  | out, _, _, _ => out

/-- `ChooseKernel::forward` for `Cpu`: allocates the output with the shape
of `lhs` (filled with the default element `dflt`, as `StridedArray::new`
does) and runs the selection loop. -/
def chooseForward {α : Type} (dflt : α) (cond : List Bool) (lhs rhs : List α) : List α :=
  chooseForwardLoop (List.replicate lhs.length dflt) cond lhs rhs

/-- The backward loop of `ChooseKernel::backward` for `Cpu`: where the
condition holds the output gradient is added onto the lhs gradient cell,
otherwise onto the rhs gradient cell; the untouched cell keeps its value;
the loop stops when any iterator is exhausted. -/
def chooseBackwardLoop {α : Type} [Add α] :
    List α → List α → List α → List Bool → List α × List α
  | l :: gl, r :: gr, o :: go, c :: cond =>
      let p := chooseBackwardLoop gl gr go cond
      if c then ((l + o) :: p.1, r :: p.2) else (l :: p.1, (r + o) :: p.2)
  | gl, gr, _, _ => (gl, gr)

/-- `ChooseKernel::backward` for `Cpu`: returns the updated pair
(grad_lhs, grad_rhs), the in-place mutation made explicit. -/
def chooseBackward {α : Type} [Add α] (cond : List Bool) (grad_lhs grad_rhs grad_out : List α) :
    List α × List α :=
  chooseBackwardLoop grad_lhs grad_rhs grad_out cond

theorem chooseForwardLoop_length {α : Type} :
    ∀ (out : List α) (cond : List Bool) (lhs rhs : List α),
      (chooseForwardLoop out cond lhs rhs).length = out.length
  | [], _, _, _ => by cases ‹List Bool› <;> rfl
  | _ :: _, [], _, _ => rfl
  | _ :: _, _ :: _, [], _ => rfl
  | _ :: _, _ :: _, _ :: _, [] => rfl
  | _ :: out, _ :: cond, _ :: lhs, _ :: rhs => by
      simp [chooseForwardLoop, chooseForwardLoop_length out cond lhs rhs]

theorem chooseForwardLoop_getElem {α : Type} :
    ∀ (out : List α) (cond : List Bool) (lhs rhs : List α),
      cond.length = out.length → lhs.length = out.length → rhs.length = out.length →
      ∀ i : Nat, (chooseForwardLoop out cond lhs rhs)[i]? =
        (cond[i]?).bind (fun c => if c then lhs[i]? else rhs[i]?)
  | [], [], [], [], _, _, _, i => by simp [chooseForwardLoop]
  | _ :: out, c :: cond, l :: lhs, r :: rhs, hc, hl, hr, 0 => by
      cases c <;> simp [chooseForwardLoop]
  | _ :: out, c :: cond, l :: lhs, r :: rhs, hc, hl, hr, (i + 1) => by
      simpa [chooseForwardLoop] using
        chooseForwardLoop_getElem out cond lhs rhs
          (by simpa using hc) (by simpa using hl) (by simpa using hr) i

/-- Claim C1: for buffers of identical shape, the forward pass of the
choose operation yields a buffer of that same shape whose element at every
position is the lhs element where the condition is true and the rhs
element otherwise; in particular
forward(cond=[T,F,T], lhs=[1,2,3], rhs=[10,20,30]) = [1,20,3]. -/
theorem choose_forward_selects {α : Type} (dflt : α) (cond : List Bool) (lhs rhs : List α)
    (hc : cond.length = lhs.length) (hr : rhs.length = lhs.length) :
    (chooseForward dflt cond lhs rhs).length = lhs.length ∧
      (∀ i : Nat, (chooseForward dflt cond lhs rhs)[i]? =
        (cond[i]?).bind (fun c => if c then lhs[i]? else rhs[i]?)) ∧
      chooseForward (0 : Int) [true, false, true] [1, 2, 3] [10, 20, 30] = [1, 20, 3] := by
  refine ⟨?_, ?_, by decide⟩
  · simpa [chooseForward] using
      chooseForwardLoop_length (List.replicate lhs.length dflt) cond lhs rhs
  · intro i
    exact chooseForwardLoop_getElem (List.replicate lhs.length dflt) cond lhs rhs
      (by simpa using hc) (by simp) (by simpa using hr) i

/-- Witness for C1 at cond=[T,F,T], lhs=[1,2,3], rhs=[10,20,30]. -/
theorem choose_forward_selects_witness :
    ([true, false, true].length = [(1 : Int), 2, 3].length) ∧
      ([(10 : Int), 20, 30].length = [(1 : Int), 2, 3].length) ∧
      (chooseForward (0 : Int) [true, false, true] [1, 2, 3] [10, 20, 30])[1]? = some 20 ∧
      chooseForward (0 : Int) [true, false, true] [1, 2, 3] [10, 20, 30] = [1, 20, 3] := by
  have h := choose_forward_selects (0 : Int) [true, false, true] [1, 2, 3] [10, 20, 30]
    (by decide) (by decide)
  exact ⟨by decide, by decide, by simpa using h.2.1 1, h.2.2⟩

theorem chooseBackwardLoop_spec {α : Type} [Add α] :
    ∀ (gl gr go : List α) (cond : List Bool),
      cond.length = gl.length → gr.length = gl.length → go.length = gl.length →
      (chooseBackwardLoop gl gr go cond).1 =
          List.zipWith (fun l p => if p.1 then l + p.2 else l) gl (cond.zip go) ∧
        (chooseBackwardLoop gl gr go cond).2 =
          List.zipWith (fun r p => if p.1 then r else r + p.2) gr (cond.zip go)
  | [], [], [], [], _, _, _ => by simp [chooseBackwardLoop]
  | l :: gl, r :: gr, o :: go, c :: cond, hc, hr, ho => by
      have ih := chooseBackwardLoop_spec gl gr go cond
        (by simpa using hc) (by simpa using hr) (by simpa using ho)
      cases c <;>
        simp [chooseBackwardLoop, ih.1, ih.2]

/-- Claim C2: for buffers of identical shape, the backward pass of the
choose operation adds the output gradient onto the gradient accumulator
that was the forward source at each position (grad_lhs where the condition
is true, grad_rhs where false) and leaves the other accumulator untouched
at that position; from zero-initialized accumulators,
backward(cond=[T,F,T], grad_out=[1,1,1]) gives grad_lhs=[1,0,1] and
grad_rhs=[0,1,0]. -/
theorem choose_backward_accumulates {α : Type} [Add α]
    (cond : List Bool) (grad_lhs grad_rhs grad_out : List α)
    (hc : cond.length = grad_lhs.length) (hr : grad_rhs.length = grad_lhs.length)
    (ho : grad_out.length = grad_lhs.length) :
    (chooseBackward cond grad_lhs grad_rhs grad_out).1 =
        List.zipWith (fun l p => if p.1 then l + p.2 else l) grad_lhs (cond.zip grad_out) ∧
      (chooseBackward cond grad_lhs grad_rhs grad_out).2 =
        List.zipWith (fun r p => if p.1 then r else r + p.2) grad_rhs (cond.zip grad_out) ∧
      chooseBackward [true, false, true] [(0 : Int), 0, 0] [0, 0, 0] [1, 1, 1] =
        ([1, 0, 1], [0, 1, 0]) := by
  have h := chooseBackwardLoop_spec grad_lhs grad_rhs grad_out cond hc hr ho
  exact ⟨h.1, h.2, by decide⟩

/-- Witness for C2 at cond=[T,F,T], zero accumulators, grad_out=[1,1,1]. -/
theorem choose_backward_accumulates_witness :
    ([true, false, true].length = [(0 : Int), 0, 0].length) ∧
      (chooseBackward [true, false, true] [(0 : Int), 0, 0] [0, 0, 0] [1, 1, 1]).1 =
        List.zipWith (fun l p => if p.1 then l + p.2 else l) [(0 : Int), 0, 0]
          ([true, false, true].zip [1, 1, 1]) ∧
      chooseBackward [true, false, true] [(0 : Int), 0, 0] [0, 0, 0] [1, 1, 1] =
        ([1, 0, 1], [0, 1, 0]) := by
  have h := choose_backward_accumulates [true, false, true] [(0 : Int), 0, 0] [0, 0, 0]
    [1, 1, 1] (by decide) (by decide) (by decide)
  exact ⟨by decide, h.1, h.2.2⟩

/-! ### Tensor handles and `DeviceStorage::upgrade` (src/tensor/storage_traits.rs) -/

/-- The Tensor handle: a unique identity, the storage buffer, the owning
device handle and a tape. `σ`, `δ`, `τ` stand for the storage, device and
tape types. -/
structure Tensor (σ δ τ : Type) where
  id : Nat
  storage : σ
  device : δ
  tape : τ

/-- Modelled from the spec: `unique_id` (not under src/) draws the next
identity from a process-wide monotonically increasing counter; the counter
state is made explicit. -/
def unique_id (c : Nat) : Nat × Nat :=
  (c, c + 1)

/-- `DeviceStorage::upgrade`: wraps a storage buffer into a `Tensor` with a
fresh id from `unique_id`, the calling device (`self.clone()`) and a
default (empty) tape; returns the advanced counter state. -/
def upgrade {σ δ τ : Type} [Inhabited τ] (device : δ) (storage : σ) (c : Nat) :
    Tensor σ δ τ × Nat :=
  let p := unique_id c
  ({ id := p.1, storage := storage, device := device, tape := default }, p.2)

/-- A sequence of `upgrade` calls on one device, threading the id counter,
one call per storage buffer. -/
def upgradeMany {σ δ τ : Type} [Inhabited τ] (device : δ) :
    List σ → Nat → List (Tensor σ δ τ) × Nat
  | [], c => ([], c)
  | s :: ss, c =>
      let t := upgrade (τ := τ) device s c
      let rest := upgradeMany device ss t.2
      (t.1 :: rest.1, rest.2)

theorem upgradeMany_getElem {σ δ τ : Type} [Inhabited τ] (device : δ) :
    ∀ (ss : List σ) (c i : Nat),
      ((upgradeMany (τ := τ) device ss c).1)[i]? =
        (ss[i]?).map (fun s => ⟨c + i, s, device, default⟩)
  | [], _, _ => by simp [upgradeMany]
  | s :: ss, c, 0 => by simp [upgradeMany, upgrade, unique_id]
  | s :: ss, c, (i + 1) => by
      have h := upgradeMany_getElem (τ := τ) device ss (c + 1) i
      simp only [upgradeMany, upgrade, unique_id] at *
      simpa [Nat.add_assoc, Nat.add_comm 1 i] using h

theorem upgradeMany_ids {σ δ τ : Type} [Inhabited τ] (device : δ) :
    ∀ (ss : List σ) (c : Nat),
      ((upgradeMany (τ := τ) device ss c).1).map Tensor.id = List.range' c ss.length
  | [], _ => by simp [upgradeMany]
  | s :: ss, c => by
      simp [upgradeMany, upgrade, unique_id, List.range',
        upgradeMany_ids (τ := τ) device ss (c + 1)]

/-- Claim C3: every `upgrade` call produces a tensor whose id is the
current value of the monotone counter (hence fresh: strictly larger than
the id of every tensor created before it), whose storage is the given
buffer taken over unchanged, whose device is the calling device, and whose
tape is the default (empty) tape; the counter advances by one per call. -/
theorem upgrade_fresh_ids {σ δ τ : Type} [Inhabited τ]
    (device : δ) (ss : List σ) (c : Nat) :
    (upgradeMany (τ := τ) device ss c).2 = c + ss.length ∧
      (∀ i : Nat, ((upgradeMany (τ := τ) device ss c).1)[i]? =
        (ss[i]?).map (fun s => ⟨c + i, s, device, default⟩)) ∧
      ((upgradeMany (τ := τ) device ss c).1).map Tensor.id = List.range' c ss.length ∧
      List.Pairwise (· < ·) (((upgradeMany (τ := τ) device ss c).1).map Tensor.id) := by
  refine ⟨?_, fun i => upgradeMany_getElem device ss c i, upgradeMany_ids device ss c, ?_⟩
  · induction ss generalizing c with
    | nil => simp [upgradeMany]
    | cons s ss ih => simp [upgradeMany, upgrade, unique_id, ih, Nat.add_assoc,
        Nat.add_comm 1 ss.length]
  · rw [upgradeMany_ids device ss c]
    have h : List.Sorted (· < ·) (List.range' c ss.length) := by
      simpa using List.pairwise_lt_range' c ss.length 1
    exact h

/-! ### Factory wrappers over fallible allocation (src/tensor/storage_traits.rs) -/

/-- Rust `Result::unwrap`: the Ok value, or a panic (modelled as `none`)
on Err. The Err payload is dropped, never turned into a fallback value. -/
def resultUnwrap {ε α : Type} : Except ε α → Option α
  | .ok a => some a
  | .error _ => none

/-- A device exposing the fallible factory entry points of
`ZerosTensor` / `OnesTensor` / `SampleTensor` / `TensorFromArray`.
`Shp` is the shape type, `Src` the literal-array type, `Distr` the
distribution type, `Ten` the produced tensor type and `Err` the error
type; each `try_*` either produces a tensor or fails. -/
structure FactoryDevice (Shp Src Distr Ten Err : Type) where
  try_zeros_like : Shp → Except Err Ten
  try_ones_like : Shp → Except Err Ten
  try_sample_like : Shp → Distr → Except Err Ten
  try_tensor : Src → Except Err Ten

variable {Shp Src Distr Ten Err : Type}

/-- `ZerosTensor::zeros`: `self.try_zeros_like(&Default::default()).unwrap()`. -/
def zeros [Inhabited Shp] (d : FactoryDevice Shp Src Distr Ten Err) : Option Ten :=
  resultUnwrap (d.try_zeros_like default)

/-- `ZerosTensor::try_zeros`: `self.try_zeros_like(&Default::default())`. -/
def try_zeros [Inhabited Shp] (d : FactoryDevice Shp Src Distr Ten Err) : Except Err Ten :=
  d.try_zeros_like default

/-- `ZerosTensor::zeros_like`: `self.try_zeros_like(src).unwrap()`. -/
def zeros_like (d : FactoryDevice Shp Src Distr Ten Err) (src : Shp) : Option Ten :=
  resultUnwrap (d.try_zeros_like src)

/-- `OnesTensor::ones`: `self.try_ones_like(&Default::default()).unwrap()`. -/
def ones [Inhabited Shp] (d : FactoryDevice Shp Src Distr Ten Err) : Option Ten :=
  resultUnwrap (d.try_ones_like default)

/-- `OnesTensor::try_ones`. -/
def try_ones [Inhabited Shp] (d : FactoryDevice Shp Src Distr Ten Err) : Except Err Ten :=
  d.try_ones_like default

/-- `OnesTensor::ones_like`. -/
def ones_like (d : FactoryDevice Shp Src Distr Ten Err) (src : Shp) : Option Ten :=
  resultUnwrap (d.try_ones_like src)

/-- `SampleTensor::sample`: `self.try_sample_like(&Default::default(), distr).unwrap()`. -/
def sample [Inhabited Shp] (d : FactoryDevice Shp Src Distr Ten Err) (distr : Distr) :
    Option Ten :=
  resultUnwrap (d.try_sample_like default distr)

/-- `SampleTensor::try_sample`. -/
def try_sample [Inhabited Shp] (d : FactoryDevice Shp Src Distr Ten Err) (distr : Distr) :
    Except Err Ten :=
  d.try_sample_like default distr

/-- `SampleTensor::sample_like`. -/
def sample_like (d : FactoryDevice Shp Src Distr Ten Err) (src : Shp) (distr : Distr) :
    Option Ten :=
  resultUnwrap (d.try_sample_like src distr)

/-- `TensorFromArray::tensor`: `self.try_tensor(src).unwrap()`. -/
def tensor (d : FactoryDevice Shp Src Distr Ten Err) (src : Src) : Option Ten :=
  resultUnwrap (d.try_tensor src)

theorem resultUnwrap_spec {ε α : Type} (r : Except ε α) (a : α) :
    (resultUnwrap r = some a ↔ r = .ok a) ∧ (∀ e : ε, r = .error e → resultUnwrap r = none) := by
  cases r <;> simp [resultUnwrap]

/-- Claim C4: each non-fallible factory wrapper returns exactly the tensor
of the corresponding `try_*` entry point when that call returns Ok, and
panics (modelled as `none`) when it returns Err; an error is never
replaced by a fallback tensor. -/
theorem wrappers_unwrap_try [Inhabited Shp]
    (d : FactoryDevice Shp Src Distr Ten Err) (t : Ten) (s : Shp) (src : Src) (distr : Distr) :
    ((zeros d = some t ↔ try_zeros d = .ok t) ∧
        ∀ e : Err, try_zeros d = .error e → zeros d = none) ∧
      ((zeros_like d s = some t ↔ d.try_zeros_like s = .ok t) ∧
        ∀ e : Err, d.try_zeros_like s = .error e → zeros_like d s = none) ∧
      ((ones d = some t ↔ try_ones d = .ok t) ∧
        ∀ e : Err, try_ones d = .error e → ones d = none) ∧
      ((ones_like d s = some t ↔ d.try_ones_like s = .ok t) ∧
        ∀ e : Err, d.try_ones_like s = .error e → ones_like d s = none) ∧
      ((sample d distr = some t ↔ try_sample d distr = .ok t) ∧
        ∀ e : Err, try_sample d distr = .error e → sample d distr = none) ∧
      ((sample_like d s distr = some t ↔ d.try_sample_like s distr = .ok t) ∧
        ∀ e : Err, d.try_sample_like s distr = .error e → sample_like d s distr = none) ∧
      ((tensor d src = some t ↔ d.try_tensor src = .ok t) ∧
        ∀ e : Err, d.try_tensor src = .error e → tensor d src = none) := by
  exact ⟨resultUnwrap_spec (d.try_zeros_like default) t,
    resultUnwrap_spec (d.try_zeros_like s) t,
    resultUnwrap_spec (d.try_ones_like default) t,
    resultUnwrap_spec (d.try_ones_like s) t,
    resultUnwrap_spec (d.try_sample_like default distr) t,
    resultUnwrap_spec (d.try_sample_like s distr) t,
    resultUnwrap_spec (d.try_tensor src) t⟩

/-- A concrete always-succeeding factory device, for evaluation. -/
def factoryOk : FactoryDevice Unit Nat Unit Nat Unit where
  try_zeros_like := fun _ => .ok 7
  try_ones_like := fun _ => .ok 8
  try_sample_like := fun _ _ => .ok 9
  try_tensor := fun n => .ok n

/-- A concrete always-failing factory device, for evaluation. -/
def factoryErr : FactoryDevice Unit Nat Unit Nat Unit where
  try_zeros_like := fun _ => .error ()
  try_ones_like := fun _ => .error ()
  try_sample_like := fun _ _ => .error ()
  try_tensor := fun _ => .error ()

/-- Witness for C4 on a succeeding and on a failing device. -/
theorem wrappers_unwrap_try_witness :
    zeros factoryOk = some 7 ∧ zeros factoryErr = none ∧
      tensor factoryOk 3 = some 3 ∧ tensor factoryErr 3 = none := by
  have hOk := wrappers_unwrap_try factoryOk 7 () 3 ()
  have hOk3 := wrappers_unwrap_try factoryOk 3 () 3 ()
  have hErr := wrappers_unwrap_try factoryErr 7 () 3 ()
  exact ⟨hOk.1.1.mpr rfl, hErr.1.2 () rfl,
    hOk3.2.2.2.2.2.2.1.mpr rfl, hErr.2.2.2.2.2.2.2 () rfl⟩

/-! ### Copy API (src/tensor/storage_traits.rs, `CopySlice`) -/

/-- A CPU tensor with an explicit shape and its flat index-ordered data.
The element count is the product of the axis sizes. -/
structure FlatTensor (α : Type) where
  shape : List Nat
  data : List α

/-- The element count of a shape: the product of the axis sizes. -/
def FlatTensor.count {α : Type} (t : FlatTensor α) : Nat :=
  t.shape.prod

/-- Modelled from the spec: the `CopySlice` implementation for `Cpu` (not
under src/) — `copy_from` overwrites the tensor data with the flat slice
and panics (modelled as `none`) if and only if the slice length differs
from the element count. -/
def copy_from {α : Type} (t : FlatTensor α) (src : List α) : Option (FlatTensor α) :=
  if src.length = t.count then some { t with data := src } else none

/-- Modelled from the spec: `copy_into` writes the tensor data out to the
destination slice (returning the filled slice) and panics (modelled as
`none`) if and only if the slice length differs from the element count. -/
def copy_into {α : Type} (t : FlatTensor α) (dst : List α) : Option (List α) :=
  if dst.length = t.count then some t.data else none

/-- Claim C5: `copy_from` panics exactly when the slice length differs
from the element count, `copy_into` likewise, and when the lengths match a
`copy_from` followed by a `copy_into` round-trips the same flat
index-ordered element sequence. -/
theorem copy_panics_iff_len_mismatch {α : Type} (t : FlatTensor α) (src dst : List α) :
    (copy_from t src = none ↔ src.length ≠ t.count) ∧
      (copy_into t dst = none ↔ dst.length ≠ t.count) ∧
      (src.length = t.count → dst.length = t.count →
        (copy_from t src).bind (fun t2 => copy_into t2 dst) = some src) := by
  refine ⟨?_, ?_, fun hs hd => ?_⟩
  · by_cases h : src.length = t.count <;> simp [copy_from, h]
  · by_cases h : dst.length = t.count <;> simp [copy_into, h]
  · simp [copy_from, copy_into, FlatTensor.count, hs, hd]

/-- Witness for C5: a 2x2 tensor, a matching 4-element slice round-trips,
and mismatched slices panic. -/
theorem copy_panics_iff_len_mismatch_witness :
    (copy_from ⟨[2, 2], [(0 : Int), 0, 0, 0]⟩ [1, 2, 3, 4]).bind
        (fun t2 => copy_into t2 [0, 0, 0, 0]) = some [1, 2, 3, 4] ∧
      copy_from ⟨[2, 2], [(0 : Int), 0, 0, 0]⟩ [1, 2, 3] = none ∧
      copy_into ⟨[2, 2], [(0 : Int), 0, 0, 0]⟩ [1] = none := by
  have h := copy_panics_iff_len_mismatch ⟨[2, 2], [(0 : Int), 0, 0, 0]⟩ [1, 2, 3, 4] [0, 0, 0, 0]
  have h3 := copy_panics_iff_len_mismatch ⟨[2, 2], [(0 : Int), 0, 0, 0]⟩ [1, 2, 3] [1]
  exact ⟨h.2.2 (by decide) (by decide), h3.1.mpr (by decide), h3.2.1.mpr (by decide)⟩

/-! ### LayerNorm1D (src/nn/layer_norm.rs) -/

/-- A learnable parameter tensor of the module: its unique identity and
its flat data (`Tensor<Rank1<M>, f32, D>` in the source). -/
structure Param where
  id : Nat
  data : List ℚ

/-- The LayerNorm1D module: learnable `gamma` and `beta` of size `M` and
the `epsilon` added to the variance. -/
structure LayerNorm1D (M : Nat) where
  gamma : Param
  beta : Param
  epsilon : ℚ

/-- `BuildModule::try_build` for LayerNorm1D: gamma from `try_ones`
(all ones), beta from `try_zeros` (all zeros), epsilon `1e-5`; each device
allocation upgrades its buffer with a fresh id from the monotone counter
`c`, so gamma gets id `c` and beta id `c + 1`. -/
def LayerNorm1D.build (M : Nat) (c : Nat) : LayerNorm1D M × Nat :=
  ({ gamma := ⟨c, List.replicate M 1⟩,
     beta := ⟨c + 1, List.replicate M 0⟩,
     epsilon := 1 / 100000 }, c + 2)

/-- `ZeroFillStorage::try_fill_with_ones` on a parameter: fill the buffer
in place with ones, keeping its identity and length. -/
def Param.fillWithOnes (p : Param) : Param :=
  { p with data := List.replicate p.data.length 1 }

/-- `OneFillStorage::try_fill_with_zeros` on a parameter: fill the buffer
in place with zeros, keeping its identity and length. -/
def Param.fillWithZeros (p : Param) : Param :=
  { p with data := List.replicate p.data.length 0 }

/-- `ResetParams::try_reset_params` for LayerNorm1D: fill gamma with ones,
fill beta with zeros, return Ok; epsilon is untouched. -/
def LayerNorm1D.tryResetParams {M : Nat} (m : LayerNorm1D M) : Except Unit (LayerNorm1D M) :=
  .ok { m with gamma := m.gamma.fillWithOnes, beta := m.beta.fillWithZeros }

/-- Counterexample to C6 as stated: `try_reset_params` does not
re-randomize — from two modules with different parameter values it
produces the identical deterministic result, gamma all ones and beta all
zeros (the build constants), independent of any randomness. -/
theorem reset_params_deterministic_cex :
    LayerNorm1D.tryResetParams (M := 3) ⟨⟨1, [2, 3, 4]⟩, ⟨2, [5, 6, 7]⟩, 1 / 100000⟩ =
        .ok ⟨⟨1, [1, 1, 1]⟩, ⟨2, [0, 0, 0]⟩, 1 / 100000⟩ ∧
      LayerNorm1D.tryResetParams (M := 3) ⟨⟨1, [9, 9, 9]⟩, ⟨2, [8, 8, 8]⟩, 1 / 100000⟩ =
        .ok ⟨⟨1, [1, 1, 1]⟩, ⟨2, [0, 0, 0]⟩, 1 / 100000⟩ := by
  constructor <;> rfl

/-- Claim C6 (amended): `try_reset_params` is fallible and resets the
parameters in place deterministically to the build-time initialization —
gamma to all ones and beta to all zeros, identities and epsilon
preserved — returning Ok on success. -/
theorem layerNorm_tryResetParams_resets {M : Nat} (m : LayerNorm1D M) :
    ∃ m2, m.tryResetParams = .ok m2 ∧
      m2.gamma.id = m.gamma.id ∧ m2.beta.id = m.beta.id ∧
      m2.gamma.data = List.replicate m.gamma.data.length 1 ∧
      m2.beta.data = List.replicate m.beta.data.length 0 ∧
      m2.epsilon = m.epsilon := by
  exact ⟨_, rfl, rfl, rfl, rfl, rfl, rfl⟩

/-! ### Gradient update and unused-parameter tracking (src/nn/layer_norm.rs) -/

/-- Modelled from the spec: the unused-tensors tracking structure (not
under src/) — the ordered collection of identities of parameters that
received no gradient. -/
structure UnusedTensors where
  ids : List Nat

/-- Record one more unused parameter identity. -/
def UnusedTensors.add (u : UnusedTensors) (i : Nat) : UnusedTensors :=
  ⟨u.ids ++ [i]⟩

/-- Modelled from the spec: a parameter updater (the test
`SimpleUpdater`, not under src/) — it knows for which tensor identities
gradient storage has been allocated. -/
structure SimpleUpdater where
  allocated : List Nat

/-- Modelled from the spec: `ParamUpdater::update` on one parameter
tensor (not under src/) — when the updater has no allocated gradient for
the parameter identity, that identity is appended to the unused set;
otherwise the unused set is untouched. -/
def Param.update (p : Param) (u : SimpleUpdater) (un : UnusedTensors) : UnusedTensors :=
  if u.allocated.contains p.id then un else un.add p.id

/-- `GradientUpdate::update` for LayerNorm1D: update gamma, then beta,
threading the unused set. -/
def LayerNorm1D.update {M : Nat} (m : LayerNorm1D M) (u : SimpleUpdater)
    (un : UnusedTensors) : UnusedTensors :=
  Param.update m.beta u (Param.update m.gamma u un)

/-- Claim C7: starting from an empty unused set, the update pass records
exactly the identities of the parameters with no allocated gradient, in
parameter order, and no others; for a freshly built module (gamma id 0,
beta id 1) with a gradient allocated only for gamma, exactly the beta
identity is reported unused. -/
theorem update_unused_exact {M : Nat} (m : LayerNorm1D M) (u : SimpleUpdater) :
    (m.update u ⟨[]⟩).ids =
        List.filter (fun i => !(u.allocated.contains i)) [m.gamma.id, m.beta.id] ∧
      ((LayerNorm1D.build 5 0).1.update ⟨[0]⟩ ⟨[]⟩).ids = [(LayerNorm1D.build 5 0).1.beta.id] := by
  constructor
  · by_cases hg : m.gamma.id ∈ u.allocated <;> by_cases hb : m.beta.id ∈ u.allocated <;>
      simp [LayerNorm1D.update, Param.update, UnusedTensors.add, hg, hb]
  · rfl

/-! ### LayerNorm1D forward (src/nn/layer_norm.rs) -/

/-- Modelled from the spec: `normalize()` over the last axis (not under
src/) — subtract the mean and divide by the standard deviation, epsilon
added to the variance; the square root function `sq` of the device is a
parameter of the model. -/
def normalize (sq : ℚ → ℚ) (eps : ℚ) (x : List ℚ) : List ℚ :=
  let n : ℚ := (x.length : ℚ)
  let mean := x.sum / n
  let varr := (x.map fun a => (a - mean) ^ 2).sum / n
  x.map fun a => (a - mean) / sq (varr + eps)

/-- `Module::forward` for LayerNorm1D on a rank-1 input:
`x.normalize(self.epsilon) * self.gamma.clone() + self.beta.clone()`,
the product and sum elementwise. -/
def LayerNorm1D.forward {M : Nat} (sq : ℚ → ℚ) (m : LayerNorm1D M) (x : List ℚ) : List ℚ :=
  List.zipWith (· + ·)
    (List.zipWith (· * ·) (normalize sq m.epsilon x) m.gamma.data) m.beta.data

theorem zipWith_mul_replicate_one :
    ∀ (l : List ℚ) (n : Nat), l.length = n → List.zipWith (· * ·) l (List.replicate n 1) = l
  | [], _, _ => by simp
  | a :: l, n, h => by
      cases n with
      | zero => simp at h
      | succ n =>
          simp [List.replicate, zipWith_mul_replicate_one l n (by simpa using h)]

theorem zipWith_add_replicate_zero :
    ∀ (l : List ℚ) (n : Nat), l.length = n → List.zipWith (· + ·) l (List.replicate n 0) = l
  | [], _, _ => by simp
  | a :: l, n, h => by
      cases n with
      | zero => simp at h
      | succ n =>
          simp [List.replicate, zipWith_add_replicate_zero l n (by simpa using h)]

theorem normalize_length (sq : ℚ → ℚ) (eps : ℚ) (x : List ℚ) :
    (normalize sq eps x).length = x.length := by
  simp [normalize]

/-- Claim C8: when gamma is all ones and beta all zeros (the state
produced by build), the LayerNorm1D forward pass equals the bare
normalization of the input over the last axis: the affine transform acts
as the identity. -/
theorem layerNorm_forward_identity_affine {M : Nat} (sq : ℚ → ℚ) (m : LayerNorm1D M)
    (x : List ℚ) (hg : m.gamma.data = List.replicate M 1)
    (hb : m.beta.data = List.replicate M 0) (hx : x.length = M) :
    m.forward sq x = normalize sq m.epsilon x := by
  unfold LayerNorm1D.forward
  rw [hg, hb, zipWith_mul_replicate_one _ M (by simp [normalize_length, hx]),
    zipWith_add_replicate_zero _ M (by simp [normalize_length, hx])]

/-- Witness for C8 on a freshly built module of size 3 and input [1,2,3]. -/
theorem layerNorm_forward_identity_affine_witness :
    ((LayerNorm1D.build 3 0).1.gamma.data = List.replicate 3 1) ∧
      ((LayerNorm1D.build 3 0).1.beta.data = List.replicate 3 0) ∧
      (LayerNorm1D.build 3 0).1.forward id [1, 2, 3] =
        normalize id (LayerNorm1D.build 3 0).1.epsilon [1, 2, 3] :=
  ⟨rfl, rfl, layerNorm_forward_identity_affine id (LayerNorm1D.build 3 0).1 [1, 2, 3] rfl rfl rfl⟩

/-- `ModuleMut::forward_mut` for LayerNorm1D: delegates to the immutable
forward; the explicit state-passing returns the module unchanged, which is
what taking `&mut self` and only calling `self.forward` amounts to. -/
def LayerNorm1D.forwardMut {M : Nat} (sq : ℚ → ℚ) (m : LayerNorm1D M) (x : List ℚ) :
    List ℚ × LayerNorm1D M :=
  (m.forward sq x, m)

/-- Claim C10: `forward_mut` returns exactly the output of the immutable
`forward` and leaves gamma, beta and epsilon unchanged. -/
theorem forwardMut_eq_forward {M : Nat} (sq : ℚ → ℚ) (m : LayerNorm1D M) (x : List ℚ) :
    (m.forwardMut sq x).1 = m.forward sq x ∧
      (m.forwardMut sq x).2.gamma = m.gamma ∧
      (m.forwardMut sq x).2.beta = m.beta ∧
      (m.forwardMut sq x).2.epsilon = m.epsilon :=
  ⟨rfl, rfl, rfl, rfl⟩

/-! ### Zero-parameter activation modules (src/nn/activations.rs) -/

/-- Modelled from the spec: the standalone tensor functions the
activation modules delegate to (`relu()`, ..., and `softmax` over the
last axis); their numerical bodies live outside src/, so they are
abstract here and only the delegation is verified. -/
structure ActivationFns where
  relu : List ℚ → List ℚ
  gelu : List ℚ → List ℚ
  sin : List ℚ → List ℚ
  cos : List ℚ → List ℚ
  ln : List ℚ → List ℚ
  exp : List ℚ → List ℚ
  sigmoid : List ℚ → List ℚ
  tanh : List ℚ → List ℚ
  square : List ℚ → List ℚ
  sqrt : List ℚ → List ℚ
  abs : List ℚ → List ℚ
  softmax : List ℚ → List ℚ

structure ReLU

structure GeLU

structure Sin

structure Cos

structure Ln

structure Exp

structure Sigmoid

structure Tanh

structure Square

structure Sqrt

structure Abs

structure Softmax

/-- `BuildModule::try_build` from the `activation_impls` macro:
`Ok(Default::default())` for every device. -/
def ReLU.tryBuild {δ : Type} (_ : δ) : Except Unit ReLU := .ok ⟨⟩

/-- `Module::forward` from the `activation_impls` macro: `relu(input)`. -/
def ReLU.forward (fns : ActivationFns) (_ : ReLU) (x : List ℚ) : List ℚ := fns.relu x

def GeLU.tryBuild {δ : Type} (_ : δ) : Except Unit GeLU := .ok ⟨⟩

def GeLU.forward (fns : ActivationFns) (_ : GeLU) (x : List ℚ) : List ℚ := fns.gelu x

def Sin.tryBuild {δ : Type} (_ : δ) : Except Unit Sin := .ok ⟨⟩

def Sin.forward (fns : ActivationFns) (_ : Sin) (x : List ℚ) : List ℚ := fns.sin x

def Cos.tryBuild {δ : Type} (_ : δ) : Except Unit Cos := .ok ⟨⟩

def Cos.forward (fns : ActivationFns) (_ : Cos) (x : List ℚ) : List ℚ := fns.cos x

def Ln.tryBuild {δ : Type} (_ : δ) : Except Unit Ln := .ok ⟨⟩

def Ln.forward (fns : ActivationFns) (_ : Ln) (x : List ℚ) : List ℚ := fns.ln x

def Exp.tryBuild {δ : Type} (_ : δ) : Except Unit Exp := .ok ⟨⟩

def Exp.forward (fns : ActivationFns) (_ : Exp) (x : List ℚ) : List ℚ := fns.exp x

def Sigmoid.tryBuild {δ : Type} (_ : δ) : Except Unit Sigmoid := .ok ⟨⟩

def Sigmoid.forward (fns : ActivationFns) (_ : Sigmoid) (x : List ℚ) : List ℚ := fns.sigmoid x

def Tanh.tryBuild {δ : Type} (_ : δ) : Except Unit Tanh := .ok ⟨⟩

def Tanh.forward (fns : ActivationFns) (_ : Tanh) (x : List ℚ) : List ℚ := fns.tanh x

def Square.tryBuild {δ : Type} (_ : δ) : Except Unit Square := .ok ⟨⟩

def Square.forward (fns : ActivationFns) (_ : Square) (x : List ℚ) : List ℚ := fns.square x

def Sqrt.tryBuild {δ : Type} (_ : δ) : Except Unit Sqrt := .ok ⟨⟩

def Sqrt.forward (fns : ActivationFns) (_ : Sqrt) (x : List ℚ) : List ℚ := fns.sqrt x

def Abs.tryBuild {δ : Type} (_ : δ) : Except Unit Abs := .ok ⟨⟩

def Abs.forward (fns : ActivationFns) (_ : Abs) (x : List ℚ) : List ℚ := fns.abs x

/-- `BuildModule::try_build` for `Softmax`: `Ok(Default::default())` for
every device. -/
def Softmax.tryBuild {δ : Type} (_ : δ) : Except Unit Softmax := .ok ⟨⟩

/-- `Module::forward` for `Softmax`: `input.softmax::<last axis>()`. -/
def Softmax.forward (fns : ActivationFns) (_ : Softmax) (x : List ℚ) : List ℚ := fns.softmax x

/-- Claim C9: every zero-parameter activation module has the trivial
derived implementation — `try_build` returns Ok of the unit value for
every device, and `forward` is exactly the corresponding standalone
tensor function applied to the input (softmax over the last axis for
`Softmax`). -/
theorem activations_trivial_impl {δ : Type} (d : δ) (fns : ActivationFns) (x : List ℚ) :
    (ReLU.tryBuild d = .ok ⟨⟩ ∧ ReLU.forward fns ⟨⟩ x = fns.relu x) ∧
      (GeLU.tryBuild d = .ok ⟨⟩ ∧ GeLU.forward fns ⟨⟩ x = fns.gelu x) ∧
      (Sin.tryBuild d = .ok ⟨⟩ ∧ Sin.forward fns ⟨⟩ x = fns.sin x) ∧
      (Cos.tryBuild d = .ok ⟨⟩ ∧ Cos.forward fns ⟨⟩ x = fns.cos x) ∧
      (Ln.tryBuild d = .ok ⟨⟩ ∧ Ln.forward fns ⟨⟩ x = fns.ln x) ∧
      (Exp.tryBuild d = .ok ⟨⟩ ∧ Exp.forward fns ⟨⟩ x = fns.exp x) ∧
      (Sigmoid.tryBuild d = .ok ⟨⟩ ∧ Sigmoid.forward fns ⟨⟩ x = fns.sigmoid x) ∧
      (Tanh.tryBuild d = .ok ⟨⟩ ∧ Tanh.forward fns ⟨⟩ x = fns.tanh x) ∧
      (Square.tryBuild d = .ok ⟨⟩ ∧ Square.forward fns ⟨⟩ x = fns.square x) ∧
      (Sqrt.tryBuild d = .ok ⟨⟩ ∧ Sqrt.forward fns ⟨⟩ x = fns.sqrt x) ∧
      (Abs.tryBuild d = .ok ⟨⟩ ∧ Abs.forward fns ⟨⟩ x = fns.abs x) ∧
      (Softmax.tryBuild d = .ok ⟨⟩ ∧ Softmax.forward fns ⟨⟩ x = fns.softmax x) :=
  ⟨⟨rfl, rfl⟩, ⟨rfl, rfl⟩, ⟨rfl, rfl⟩, ⟨rfl, rfl⟩, ⟨rfl, rfl⟩, ⟨rfl, rfl⟩,
    ⟨rfl, rfl⟩, ⟨rfl, rfl⟩, ⟨rfl, rfl⟩, ⟨rfl, rfl⟩, ⟨rfl, rfl⟩, ⟨rfl, rfl⟩⟩

end Dfdx
